import Mathlib

/-!
Verification of the RAMSES-II decoding core of this repository.

The frame-layer definitions below are transcribed from
`ramses_rf/protocol/frame.py`; the message-layer definitions from
`evohome/message.py`.  Constant tables and helper modules that the sources
depend on but that are not part of the source tree (`const.py`, `ramses.py`,
`address.py`, `parsers.py`) are modelled from the specification; each such
definition carries a doc comment that starts with `Modelled from the spec:`.

Python exceptions are modelled with `Except PyErr`; machine integers do not
occur (all lengths are small `Nat`s).
-/

deriving instance DecidableEq for Except

namespace Ramses

/-- Kinds of Python exception the embedded code can raise. -/
inductive PyErr where
  | invalidPacket
  | invalidPayload
  | assertionError
  | notImplementedError
  | typeError
  | keyError
  deriving DecidableEq

/-- A device address: the ten-character id and the two-digit type field
(as held by `Address` objects from `address.py`). -/
structure Address where
  id : String
  type : String
  deriving DecidableEq

/-- Modelled from the spec: the NON ("field not used") sentinel address,
rendered `--:------` (`address.py` is not in the source tree). -/
def NON_DEV_ADDR : Address := { id := "--:------", type := "--" }

/-- Modelled from the spec: the NUL (broadcast) sentinel address,
rendered `63:262143` (`address.py` is not in the source tree). -/
def NUL_DEV_ADDR : Address := { id := "63:262143", type := "63" }

/-- The verb constant `I_` (`" I"`) from `const.py`, as given by the spec. -/
def I_ : String := " I"

/-- The verb constant `RQ` (`"RQ"`) from `const.py`, as given by the spec. -/
def RQ : String := "RQ"

/-- The verb constant `RP` (`"RP"`) from `const.py`, as given by the spec. -/
def RP : String := "RP"

/-- The verb constant `W_` (`" W"`) from `const.py`, as given by the spec. -/
def W_ : String := " W"

/-- Domain-id constant `F8`. -/
def F8 : String := "F8"

/-- Domain-id constant `F9`. -/
def F9 : String := "F9"

/-- Domain-id constant `FA`. -/
def FA : String := "FA"

/-- Domain-id constant `FC`. -/
def FC : String := "FC"

namespace DEV_TYPE_MAP

/-- Modelled from the spec: device-type prefix of a controller (CTL). -/
def CTL : String := "01"

/-- Modelled from the spec: device-type prefix of an underfloor controller (UFC). -/
def UFC : String := "02"

/-- Modelled from the spec: device-type prefix of a programmer (PRG). -/
def PRG : String := "23"

/-- Modelled from the spec: device-type prefix of the gateway (HGI);
`evohome/message.py` line 212 confirms `"18"` is the HGI80. -/
def HGI : String := "18"

/-- Modelled from the spec: device-type prefix of an OpenTherm bridge (OTB);
the examples in `frame.py` show `10:050360` answering OpenTherm `3220`. -/
def OTB : String := "10"

/-- Modelled from the spec: device-type prefix of a direct thermostat (DTS);
the comments in `frame.py` (`# 12/22:`) give the two prefixes. -/
def DTS : String := "12"

/-- Modelled from the spec: device-type prefix of a direct thermostat (DT2). -/
def DT2 : String := "22"

end DEV_TYPE_MAP

namespace DEV_ROLE_MAP

/-- Modelled from the spec: device-role `APP` (`0F`), per the role mapping of
the `000C` index rule (spec section 4.3) and the `# "000F"` comment in `frame.py`. -/
def APP : String := "0F"

/-- Modelled from the spec: device-role `DHW` (`0D`). -/
def DHW : String := "0D"

/-- Modelled from the spec: device-role `HTG` (`0E`). -/
def HTG : String := "0E"

end DEV_ROLE_MAP

/-- Modelled from the spec: `CODES_WITH_ARRAYS` from `ramses.py` (not in the
source tree) — per array-capable opcode, the element length in bytes, taken
from the per-opcode rules of spec section 4.3 and the worked examples quoted
in the comments of `frame.py`. -/
def CODES_WITH_ARRAYS : List (String × Nat) :=
  [("0009", 3), ("000A", 6), ("2249", 7), ("2309", 3), ("30C9", 3),
   ("22C9", 6), ("3150", 2)]

/-- Modelled from the spec: `CODES_ONLY_FROM_CTL` from `ramses.py` (not in the
source tree) — the controller-only opcode set, "a published closed set that
includes `1F09` and the periodic `000A`/`2309`/`30C9`" (spec section 4.4;
`31D9`/`31DA` are appended at the use site in `frame.py`). -/
def CODES_ONLY_FROM_CTL : List String := ["000A", "1F09", "2309", "30C9"]

/-- Modelled from the spec: `CODE_IDX_COMPLEX` from `ramses.py` (not in the
source tree) — "opcodes with complex indices (`0005`, `000C`, `0404`, `0418`,
`1100`, `3220`, …)" (spec section 4.4). -/
def CODE_IDX_COMPLEX : List String :=
  ["0005", "000C", "0404", "0418", "1100", "3220"]

/-- Modelled from the spec: `CODE_IDX_NONE` from `ramses.py` (not in the
source tree) — "opcodes with fixed absence return false".  The spec does not
enumerate this set, so it is left empty; no claim depends on its contents. -/
def CODE_IDX_NONE : List String := []

/-- Modelled from the spec: `CODE_IDX_SIMPLE` from `ramses.py` (not in the
source tree).  The spec does not enumerate this set; the periodic sync codes
are used as representatives — both branches that consult it return the same
value, so no claim depends on its contents. -/
def CODE_IDX_SIMPLE : List String := ["000A", "2309", "30C9"]

/-- Modelled from the spec: `CODE_IDX_DOMAIN` from `ramses.py` (not in the
source tree) — the opcodes whose index may be a domain id (`F8`/`F9`/`FA`/`FC`).
Membership is taken from the spec: `0009` carries `domain_id` records
(section 8, scenario 1), `1100`'s index "is `FC` if the payload starts with
`F`", `1FC9` binds domains, `3150` payloads may start with `F`, `3B00` has
payloads starting `FC`, and `0001`/`0008` address domains per the glossary. -/
def CODE_IDX_DOMAIN : List String :=
  ["0001", "0008", "0009", "1100", "1FC9", "3150", "3B00"]

/-- Modelled from the spec: the `CODES_SCHEMA[code].get(verb, "")[:3]` lookup
used inside the `CODE_IDX_NONE` branch of `_pkt_idx` (`ramses.py` is not in
the source tree; the spec publishes no schema strings, so the lookup yields
the empty default — the branch is unreachable anyway as `CODE_IDX_NONE` is
modelled empty). -/
def codesSchemaVerbHead (_code _verb : String) : String := ""

/-- Python string slice `s[a:b]` (with the usual clamping). -/
def pySlice (s : String) (a b : Nat) : String :=
  ((s.data.drop a).take (b - a)).asString

/-- The structural fields of a `Frame` as set by `Frame.__init__`
(`ramses_rf/protocol/frame.py`): verb, sequence number, derived source and
destination addresses, opcode, declared-length field and hex payload.
`pkt_addrs` hands back the very same `Address` object as both `src` and
`dst` in the loopback shapes, so Python's `dst is src` coincides with id
equality of the derived pair and both are modelled as `dst.id = src.id`. -/
structure Frame where
  verb : String
  seqn : String
  src : Address
  dst : Address
  code : String
  len_ : String
  payload : String
  deriving DecidableEq

/-- `self._len = int(len(self.payload) / 2)` from `Frame.__init__`. -/
def Frame.plen (f : Frame) : Nat := f.payload.length / 2

/-- Element length lookup `CODES_WITH_ARRAYS[code][0]`; `none` models
`code not in CODES_WITH_ARRAYS`. -/
def arrayElemLen (code : String) : Option Nat :=
  (CODES_WITH_ARRAYS.find? (fun p => p.1 == code)).map Prod.snd

/-- `Frame._has_array` from `ramses_rf/protocol/frame.py`: whether the packet
payload is an array.  The `assert` statements of the final branch are
modelled as `AssertionError`s. -/
def Frame._has_array (f : Frame) : Except PyErr Bool :=
  if f.code = "1FC9" then .ok (decide (f.verb ≠ RQ))
  else if f.verb ≠ I_ ∨ arrayElemLen f.code = none then .ok false
  else match arrayElemLen f.code with
    | none => .ok false
    | some elen =>
      if f.plen = elen then
        .ok (decide ((f.code = "22C9" ∨ f.code = "3150")
          ∧ f.src.type = DEV_TYPE_MAP.UFC
          ∧ f.dst.id = f.src.id
          ∧ pySlice f.payload 0 1 ≠ "F"))
      else if ¬ (f.plen % elen = 0) then .error .assertionError
      else if ¬ (f.src.type = DEV_TYPE_MAP.DTS ∨ f.src.type = DEV_TYPE_MAP.DT2
                  ∨ f.src.id = f.dst.id) then .error .assertionError
      else if ¬ ((f.src.type ≠ DEV_TYPE_MAP.DTS ∧ f.src.type ≠ DEV_TYPE_MAP.DT2)
                  ∨ f.dst.id = NON_DEV_ADDR.id) then .error .assertionError
      else .ok true

/-- `Frame._has_ctl` from `ramses_rf/protocol/frame.py`: whether the packet
is to/from a controller. -/
def Frame._has_ctl (f : Frame) : Bool :=
  if f.src.type = DEV_TYPE_MAP.CTL ∨ f.src.type = DEV_TYPE_MAP.UFC
      ∨ f.src.type = DEV_TYPE_MAP.PRG
      ∨ f.dst.type = DEV_TYPE_MAP.CTL ∨ f.dst.type = DEV_TYPE_MAP.UFC
      ∨ f.dst.type = DEV_TYPE_MAP.PRG then true
  else if f.dst.id = f.src.id then
    decide ((f.code = "3B00" ∧ pySlice f.payload 0 2 = FC)
      ∨ f.code ∈ CODES_ONLY_FROM_CTL ++ ["31D9", "31DA"])
  else if f.dst.id = NON_DEV_ADDR.id then decide (f.src.type ≠ DEV_TYPE_MAP.OTB)
  else if f.dst.type = DEV_TYPE_MAP.DTS ∨ f.dst.type = DEV_TYPE_MAP.DT2 then true
  else false

/-- The `None | bool | str` result type of `_pkt_idx`. -/
inductive IdxVal where
  | pyNone
  | bool (b : Bool)
  | str (s : String)
  deriving DecidableEq

/-- `_pkt_idx` from `ramses_rf/protocol/frame.py`: the payload's 2-char
context (zone_idx, domain_id or log_idx), `False` when there is no context,
`True` when the payload is an array and `None` when indeterminable. -/
def _pkt_idx (pkt : Frame) : Except PyErr IdxVal :=
  if pkt.code = "0005" then (pkt._has_array).map .bool
  else if pkt.code = "0009" ∧ pkt.src.type = DEV_TYPE_MAP.OTB then .ok (.bool false)
  else if pkt.code = "000C" then
    if pySlice pkt.payload 2 4 = DEV_ROLE_MAP.APP then .ok (.str FC)
    else if pySlice pkt.payload 0 4 = "01" ++ DEV_ROLE_MAP.HTG then .ok (.str F9)
    else if pySlice pkt.payload 2 4 = DEV_ROLE_MAP.DHW
        ∨ pySlice pkt.payload 2 4 = DEV_ROLE_MAP.HTG then .ok (.str FA)
    else .ok (.str (pySlice pkt.payload 0 2))
  else if pkt.code = "0404" then
    .ok (.str (if pySlice pkt.payload 2 4 = "23" then "HW" else pySlice pkt.payload 0 2))
  else if pkt.code = "0418" then .ok (.str (pySlice pkt.payload 4 6))
  else if pkt.code = "1100" then
    .ok (if pySlice pkt.payload 0 1 = "F" then .str (pySlice pkt.payload 0 2)
         else .bool false)
  else if pkt.code = "3220" then .ok (.str (pySlice pkt.payload 4 6))
  else if pkt.code ∈ CODE_IDX_COMPLEX then .error .notImplementedError
  else if pkt.code ∈ CODE_IDX_NONE then
    if codesSchemaVerbHead pkt.code pkt.verb = "^00" ∧ pySlice pkt.payload 0 2 ≠ "00"
    then .error .invalidPayload
    else .ok (.bool false)
  else match pkt._has_array with
    | .error e => .error e
    | .ok true => .ok (.bool true)
    | .ok false =>
      if pySlice pkt.payload 0 2 = F8 ∨ pySlice pkt.payload 0 2 = F9
          ∨ pySlice pkt.payload 0 2 = FA ∨ pySlice pkt.payload 0 2 = FC then
        if pkt.code ∉ CODE_IDX_DOMAIN then .error .invalidPayload
        else .ok (.str (pySlice pkt.payload 0 2))
      else if pkt._has_ctl then .ok (.str (pySlice pkt.payload 0 2))
      else if pySlice pkt.payload 0 2 ≠ "00" then .error .invalidPayload
      else if pkt.code ∈ CODE_IDX_SIMPLE then .ok .pyNone
      else .ok .pyNone

/-- The `bool | str` value held by `Frame._idx` / `Frame._ctx`. -/
inductive CtxVal where
  | bool (b : Bool)
  | str (s : String)
  deriving DecidableEq

/-- `Frame._idx` from `ramses_rf/protocol/frame.py`:
`self._idx_ = _pkt_idx(self) or False` (Python truthiness: `None`, `False`
and the empty string all collapse to `False`). -/
def Frame._idx (f : Frame) : Except PyErr CtxVal :=
  (_pkt_idx f).map fun v =>
    match v with
    | .pyNone => .bool false
    | .bool b => .bool b
    | .str s => if s = "" then .bool false else .str s

/-- `Frame._ctx` from `ramses_rf/protocol/frame.py`: the payload's full
context.  For `0404` the Python `self._idx + self.payload[10:12]` raises
`TypeError` when `_idx` is a bool. -/
def Frame._ctx (f : Frame) : Except PyErr CtxVal :=
  if f.code = "0005" ∨ f.code = "000C" then .ok (.str (pySlice f.payload 0 4))
  else if f.code = "0404" then
    match f._idx with
    | .error e => .error e
    | .ok (.str s) => .ok (.str (s ++ pySlice f.payload 10 12))
    | .ok (.bool _) => .error .typeError
  else f._idx

/-- The `addr` local of `pkt_header`:
`pkt.dst if pkt.src.type == DEV_TYPE_MAP.HGI else pkt.src`. -/
def pkt_header_addr (pkt : Frame) : Address :=
  if pkt.src.type = DEV_TYPE_MAP.HGI then pkt.dst else pkt.src

/-- The `header` local of the non-`1FC9` path of `pkt_header` (`none` models
the early `return None` for announcements and loopback). -/
def pkt_header_base (pkt : Frame) (rx_header : Bool) : Option String :=
  if ¬ rx_header then
    some (pkt.code ++ "|" ++ pkt.verb ++ "|" ++ (pkt_header_addr pkt).id)
  else if pkt.verb = I_ ∨ pkt.verb = RP ∨ pkt.src.id = pkt.dst.id then none
  else
    some (pkt.code ++ "|" ++ (if pkt.verb = RQ then RP else I_) ++ "|"
      ++ (pkt_header_addr pkt).id)

/-- `pkt_header` from `ramses_rf/protocol/frame.py`: the QoS header of a
packet; with `rx_header = true`, the header of the expected response, if one
is expected.  Only `AssertionError` is caught around the `_ctx` access. -/
def pkt_header (pkt : Frame) (rx_header : Bool) : Except PyErr (Option String) :=
  if pkt.code = "1FC9" then
    if ¬ rx_header then
      .ok (some (pkt.code ++ "|" ++ pkt.verb ++ "|"
        ++ (if pkt.src.id = pkt.dst.id then NUL_DEV_ADDR.id else pkt.dst.id)))
    else if pkt.src.id = pkt.dst.id then
      .ok (some (pkt.code ++ "|" ++ W_ ++ "|" ++ pkt.src.id))
    else if pkt.verb = W_ then
      .ok (some (pkt.code ++ "|" ++ I_ ++ "|" ++ pkt.src.id))
    else .ok none
  else
    match pkt_header_base pkt rx_header with
    | none => .ok none
    | some h =>
      match pkt._ctx with
      | .ok (.str s) => .ok (some (h ++ "|" ++ s))
      | .ok (.bool _) => .ok (some h)
      | .error .assertionError => .ok (some h)
      | .error e => .error e

/-- The tokens of one frame line, as produced by
`fields = frame.lstrip().split(" ")` together with `verb = frame[:2]` in
`Frame.__init__` (the character-level split is elided; the fields are taken
as given). -/
structure RawLine where
  verb : String
  seqn : String
  addr0 : String
  addr1 : String
  addr2 : String
  code : String
  len_ : String
  payload : String
  deriving DecidableEq

/-- Uppercase hexadecimal digit. -/
def isHexChar (c : Char) : Bool := c.isDigit || ("ABCDEF".data.contains c)

/-- A string of exactly `n` decimal digits. -/
def isDecDigits (s : String) (n : Nat) : Bool :=
  (s.length == n) && s.data.all Char.isDigit

/-- Modelled from the spec: the 9-character address field shape of section 3 —
`TT:SSSSSS` (all decimal) or the NON literal `--:------`. -/
def isAddrStr (s : String) : Bool :=
  (s == NON_DEV_ADDR.id)
  || ((s.length == 9) && (pySlice s 0 2).data.all Char.isDigit
      && (pySlice s 2 3 == ":") && (pySlice s 3 9).data.all Char.isDigit)

/-- Modelled from the spec: `COMMAND_REGEX` from `const.py` (not in the source
tree) — the structural frame grammar of spec sections 4.2 and 6: a two-char
verb field, `---` or three digits, three 9-char addresses, 4 hex opcode,
3-digit decimal length, and an uppercase-hex payload of at most 48 byte
pairs (a zero-length payload is accepted, spec section 8). -/
def commandRegexMatch (r : RawLine) : Bool :=
  (r.verb == I_ || r.verb == RQ || r.verb == W_ || r.verb == RP)
  && (r.seqn == "---" || isDecDigits r.seqn 3)
  && isAddrStr r.addr0 && isAddrStr r.addr1 && isAddrStr r.addr2
  && (r.code.length == 4) && r.code.data.all isHexChar
  && isDecDigits r.len_ 3
  && r.payload.data.all isHexChar
  && (r.payload.length % 2 == 0) && (r.payload.length / 2 ≤ 48)

/-- An `Address` as built by `address.py` from a validated 9-char field:
the id string, typed by its first two characters. -/
def mkAddress (s : String) : Address := { id := s, type := pySlice s 0 2 }

/-- Modelled from the spec: `pkt_addrs` from `address.py` (not in the source
tree) — the address-triplet legality table of spec section 3: the valid
shapes are (a) src, dst, NON; (b) src, NON, src (loopback); (c) NON, NON,
broadcaster; anything else is rejected.  The derived pair is `(src, dst)`
with `dst = src` when only one real address is present. -/
def pkt_addrs (a0 a1 a2 : Address) : Except PyErr (Address × Address) :=
  if a0.id ≠ NON_DEV_ADDR.id ∧ a1.id ≠ NON_DEV_ADDR.id ∧ a2.id = NON_DEV_ADDR.id then
    .ok (a0, a1)
  else if a0.id ≠ NON_DEV_ADDR.id ∧ a1.id = NON_DEV_ADDR.id ∧ a2.id = a0.id then
    .ok (a0, a0)
  else if a0.id = NON_DEV_ADDR.id ∧ a1.id = NON_DEV_ADDR.id ∧ a2.id ≠ NON_DEV_ADDR.id then
    .ok (a2, a2)
  else .error .invalidPacket

/-- `int(s)` on a regex-validated 3-digit decimal field. -/
def pyInt (s : String) : Nat :=
  s.data.foldl (fun n c => n * 10 + (c.toNat - 48)) 0

/-- `Frame.__init__` from `ramses_rf/protocol/frame.py`: reject a line that
fails `COMMAND_REGEX`, derive the `(src, dst)` pair via `pkt_addrs` (wrapping
any failure as `InvalidPacketError`), then reject the line when
`len(self.payload) != int(self.len_) * 2`. -/
def Frame.init (r : RawLine) : Except PyErr Frame :=
  if ¬ commandRegexMatch r then .error .invalidPacket
  else
    match pkt_addrs (mkAddress r.addr0) (mkAddress r.addr1) (mkAddress r.addr2) with
    | .error _ => .error .invalidPacket
    | .ok (s, d) =>
      if r.payload.length ≠ pyInt r.len_ * 2 then .error .invalidPacket
      else .ok { verb := r.verb, seqn := r.seqn, src := s, dst := d,
                 code := r.code, len_ := r.len_, payload := r.payload }

end Ramses

namespace Evo

open Ramses (pySlice PyErr)

/-- A gateway-owned device record as used by `evohome/message.py`: its id,
its two-digit type and its `is_controller` flag.  The gateway holds one
`Device` object per id, so Python object identity (`is`) between resolved
devices coincides with structural equality. -/
structure Device where
  id : String
  type : String
  is_controller : Bool
  deriving DecidableEq

/-- `Message.dst` is the resolved `Device` when `gateway.get_device` found
one, and the raw destination `Address` otherwise. -/
inductive DstRef where
  | dev (d : Device)
  | addr (id : String)
  deriving DecidableEq

/-- Modelled from the spec: the fields of a parsed-payload dict that the
message processor reads (`parsers.py` is not in the source tree): the
`zone_idx` key and, for `000C`, the `actuators` device-id list
(spec section 8, scenario 2). -/
structure PayDict where
  zone_idx : Option String := none
  actuators : Option (List String) := none
  deriving DecidableEq

/-- Modelled from the spec: the value a payload parser produces — a record,
a list of records, or Python `None` when no parser ran (spec section 4.3:
"a tagged result"). -/
inductive Payload where
  | pyNone
  | dict (d : PayDict)
  | list (l : List PayDict)
  deriving DecidableEq

/-- `isinstance(payload, list)`. -/
def Payload.isList : Payload → Bool
  | .list _ => true
  | _ => false

/-- `isinstance(payload, dict) or isinstance(payload, list)`. -/
def Payload.isDictOrList : Payload → Bool
  | .pyNone => false
  | _ => true

/-- The fields of a `Message` (`evohome/message.py`) that the claims touch:
verb, opcode, raw hex payload, resolved source device, destination reference,
the parsed payload and the validity flag computed by `_parse_payload`. -/
structure Message where
  verb : String
  code : String
  raw_payload : String
  src : Device
  dst : DstRef
  payload : Payload
  is_valid : Bool
  deriving DecidableEq

/-- `self.src is self.dst`: true when the destination resolved to the very
same gateway-owned `Device` object as the source. -/
def Message.srcIsDst (m : Message) : Bool := m.dst == DstRef.dev m.src

/-- `Message.is_array` from `evohome/message.py`: whether the message's raw
payload is an array (the parsed payload "may not match, e.g. 000C"). -/
def Message.is_array (m : Message) : Bool :=
  if m.code = "000C" ∨ m.code = "1FC9" then
    decide (m.verb = " I" ∨ m.verb = "RP")
  else if ¬ (m.verb = " I" ∨ m.verb = "RP") ∨ ¬ m.srcIsDst then false
  else if m.code = "0009" ∧ m.src.type = "01" then
    decide (m.verb = " I" ∧ pySlice m.raw_payload 0 1 = "F")
  else if (m.code = "000A" ∨ m.code = "2309" ∨ m.code = "30C9") ∧ m.src.type = "01" then
    decide (m.verb = " I") && m.srcIsDst
  else if (m.code = "22C9" ∨ m.code = "3150") ∧ m.src.type = "02" then
    (decide (m.verb = " I") && m.srcIsDst) && decide (pySlice m.raw_payload 0 1 ≠ "F")
  else if m.code = "2249" ∧ m.src.type = "23" then
    decide (m.verb = " I") && m.srcIsDst
  else false

/-- The outcome of running the payload parser picked for the packet's opcode
(`payload_parser(self.raw_payload, self)` in `_parse_payload`).  `parsers.py`
is not in the source tree; a parser either returns a `Payload` value or
raises, and per spec section 4.3 a parser signals failure by a failing
`assert`. -/
def ParserOutcome : Type := Except PyErr Payload

/-- `Message._parse_payload` from `evohome/message.py`, given the outcome of
the selected parser: the `try` block catches `AssertionError` only (logging
the packet and returning `False`, with `self._payload` left as set); any
other exception propagates.  On success the parsed value must be a dict or a
list, else the trailing `assert` fails and is caught the same way. -/
def _parse_payload (r : Except PyErr Payload) : Except PyErr (Bool × Payload) :=
  match r with
  | .error .assertionError => .ok (false, .pyNone)
  | .error e => .error e
  | .ok p => if p.isDictOrList then .ok (true, p) else .ok (false, p)

/-- `Message.__init__` from `evohome/message.py`, reduced to the steps the
claims touch: run `_parse_payload` to obtain the validity flag and the parsed
payload, then — for every opcode except `000C` — `assert self.is_array ==
isinstance(self.payload, list)`. -/
def Message.init (verb code raw : String) (src : Device) (dst : DstRef)
    (parsed : Except PyErr Payload) : Except PyErr Message :=
  match _parse_payload parsed with
  | .error e => .error e
  | .ok (valid, pl) =>
    let m : Message :=
      { verb := verb, code := code, raw_payload := raw, src := src, dst := dst,
        payload := pl, is_valid := valid }
    if code ≠ "000C" ∧ m.is_array ≠ pl.isList then .error .assertionError
    else .ok m

/-- An argument value passed to Python's `all`: either a plain bool or a
tuple of bools. -/
inductive PyObj where
  | pybool (b : Bool)
  | tuple (items : List Bool)
  deriving DecidableEq

/-- Python's builtin `all`: it accepts exactly one iterable argument;
a call with any other number of arguments — and a call whose single
argument is a plain bool — raises `TypeError`. -/
def pyAll : List PyObj → Except PyErr Bool
  | [PyObj.tuple items] => .ok (items.all id)
  | _ => .error .typeError

/-- `Message.__eq__` from `evohome/message.py`, exactly as written: `all(`
applied to five comma-separated boolean arguments (not a tuple). -/
def Message.eqPy (a b : Message) : Except PyErr Bool :=
  pyAll
    [ .pybool (a.verb == b.verb),
      .pybool (a.code == b.code),
      .pybool (a.src == b.src),
      .pybool (a.dst == b.dst),
      .pybool (a.raw_payload == b.raw_payload) ]

/-- Modelled from the spec: the intended `Message` equality "over the full
tuple of `(verb, code, src, dst, payload_hex)`" (spec section 9). -/
def Message.eqIntended (a b : Message) : Bool :=
  (a.verb == b.verb) && (a.code == b.code) && (a.src == b.src)
    && (a.dst == b.dst) && (a.raw_payload == b.raw_payload)

/-- One `harvest_func(...)` call made by `Message.harvest_devices`: the id of
the address/device passed, the `controller=` keyword and the `parent_000c=`
keyword. -/
structure HarvestCall where
  target : String
  controller : Option String := none
  parent_000c : Option String := none
  deriving DecidableEq

/-- The id of the object a `DstRef` designates. -/
def DstRef.name : DstRef → String
  | .dev d => d.id
  | .addr a => a

/-- `self.dst.is_controller` guarded by `isinstance(self.dst, Device)`. -/
def DstRef.isCtlDevice : DstRef → Bool
  | .dev d => d.is_controller
  | .addr _ => false

/-- `Message.harvest_devices` from `evohome/message.py`, recorded as the list
of `harvest_func` calls it makes.  In the `000C RP` branch the subscripts
`self.payload["zone_idx"]` / `self.payload["actuators"]` raise `TypeError`
on a non-dict payload and `KeyError` on a missing key. -/
def Message.harvest_devices (m : Message) : Except PyErr (List HarvestCall) :=
  if m.code = "1F09" ∧ m.verb = " I" then
    .ok [{ target := m.dst.name, controller := some m.src.id }]
  else if m.code = "31D9" ∧ m.verb = " I" then
    .ok [{ target := m.dst.name, controller := some m.src.id }]
  else if m.code = "000C" ∧ m.verb = "RP" then
    match m.payload with
    | .dict d =>
      match d.zone_idx, d.actuators with
      | some z, some acts =>
        .ok ({ target := m.dst.name, controller := some m.src.id }
          :: acts.map fun a =>
              { target := a, controller := some m.src.id, parent_000c := some z })
      | _, _ => .error .keyError
    | _ => .error .typeError
  else if m.src.is_controller then
    .ok [{ target := m.dst.name, controller := some m.src.id }]
  else if m.dst.isCtlDevice then
    .ok [{ target := m.src.id, controller := some m.dst.name }]
  else
    .ok ({ target := m.src.id }
      :: (if m.dst ≠ DstRef.dev m.src then [{ target := m.dst.name }] else []))

/-- The harvesting rules exactly as the claim words them: for `000C RP` only
the actuator devices of the parsed payload are recorded (no claim of the
destination under the source controller); everything else as in the code. -/
def harvest_devices_claimed (m : Message) : Except PyErr (List HarvestCall) :=
  if m.code = "1F09" ∧ m.verb = " I" then
    .ok [{ target := m.dst.name, controller := some m.src.id }]
  else if m.code = "31D9" ∧ m.verb = " I" then
    .ok [{ target := m.dst.name, controller := some m.src.id }]
  else if m.code = "000C" ∧ m.verb = "RP" then
    match m.payload with
    | .dict d =>
      match d.zone_idx, d.actuators with
      | some z, some acts =>
        .ok (acts.map fun a =>
              { target := a, controller := some m.src.id, parent_000c := some z })
      | _, _ => .error .keyError
    | _ => .error .typeError
  else if m.src.is_controller then
    .ok [{ target := m.dst.name, controller := some m.src.id }]
  else if m.dst.isCtlDevice then
    .ok [{ target := m.src.id, controller := some m.dst.name }]
  else
    .ok ({ target := m.src.id }
      :: (if m.dst ≠ DstRef.dev m.src then [{ target := m.dst.name }] else []))

end Evo

namespace Ramses

/-- The controller-only opcode set as the claim describes it: the published
closed set together with `31D9`/`31DA` (which `frame.py` appends at the use
site). -/
def controllerOnlySet : List String := CODES_ONLY_FROM_CTL ++ ["31D9", "31DA"]

/-- The `_has_ctl` rules exactly as the claim words them, in priority order:
(1) source or destination type is CTL, UFC or PRG; (2) otherwise, for
loopback frames, membership of the controller-only set or `3B00` with a
payload starting `FC`; (3) otherwise, destination NON: true unless the source
is an OTB; (4) otherwise, destination DTS/DT2; (5) otherwise false. -/
def has_ctl_claim (f : Frame) : Bool :=
  if f.src.type ∈ [DEV_TYPE_MAP.CTL, DEV_TYPE_MAP.UFC, DEV_TYPE_MAP.PRG]
      ∨ f.dst.type ∈ [DEV_TYPE_MAP.CTL, DEV_TYPE_MAP.UFC, DEV_TYPE_MAP.PRG] then true
  else if f.src.id = f.dst.id then
    decide (f.code ∈ controllerOnlySet
      ∨ (f.code = "3B00" ∧ pySlice f.payload 0 2 = "FC"))
  else if f.dst.id = NON_DEV_ADDR.id then decide (f.src.type ≠ DEV_TYPE_MAP.OTB)
  else if f.dst.type = DEV_TYPE_MAP.DTS ∨ f.dst.type = DEV_TYPE_MAP.DT2 then true
  else false

/-- The "other" address id of the header rule: the destination when the
source is the HGI gateway, the source otherwise. -/
def otherAddrId (f : Frame) : String :=
  (if f.src.type = DEV_TYPE_MAP.HGI then f.dst else f.src).id

/-- Append the context to a header base exactly when `_ctx` is a string. -/
def hdrWithCtx (f : Frame) (base : String) : String :=
  match f._ctx with
  | .ok (.str s) => base ++ "|" ++ s
  | _ => base

/-- Whether `pkt_header`'s access to `_ctx` completes: `_ctx` either computes
a value or fails with the one exception class (`AssertionError`) that
`pkt_header` catches. -/
def ctxComputes (f : Frame) : Bool :=
  match f._ctx with
  | .ok _ => true
  | .error .assertionError => true
  | .error _ => false

end Ramses

/-- The `1FC9 W` bind offer of spec scenario 6:
`W --- 01:145038 34:021943 --:------ 1FC9 006 002309063628`. -/
def frame1FC9W : Ramses.Frame :=
  { verb := " W", seqn := "---",
    src := { id := "01:145038", type := "01" },
    dst := { id := "34:021943", type := "34" },
    code := "1FC9", len_ := "006", payload := "002309063628" }

/-- The `RQ --- 18:006402 13:049798 --:------ 22D9 001 00` probe: an RQ sent
by the HGI gateway. -/
def frame22D9 : Ramses.Frame :=
  { verb := "RQ", seqn := "---",
    src := { id := "18:006402", type := "18" },
    dst := { id := "13:049798", type := "13" },
    code := "22D9", len_ := "001", payload := "00" }

/-- The tokens of the line `RQ --- 18:006402 13:049798 --:------ 22D9 001 00`. -/
def raw22D9 : Ramses.RawLine :=
  { verb := "RQ", seqn := "---", addr0 := "18:006402", addr1 := "13:049798",
    addr2 := "--:------", code := "22D9", len_ := "001", payload := "00" }

/-- The same line with the declared length corrupted to `002`. -/
def raw22D9bad : Ramses.RawLine :=
  { verb := "RQ", seqn := "---", addr0 := "18:006402", addr1 := "13:049798",
    addr2 := "--:------", code := "22D9", len_ := "002", payload := "00" }

/-- The frame `RQ --- 18:006402 13:049798 --:------ 3EF0 002 FC00`: a
simple-discipline opcode whose payload opens with the domain nibble `FC`. -/
def frame3EF0 : Ramses.Frame :=
  { verb := "RQ", seqn := "---",
    src := { id := "18:006402", type := "18" },
    dst := { id := "13:049798", type := "13" },
    code := "3EF0", len_ := "002", payload := "FC00" }

/-- The loopback `1FC9 I` bind offer quoted in the comments of `frame.py`. -/
def frame1FC9 : Ramses.Frame :=
  { verb := " I", seqn := "---",
    src := { id := "01:145038", type := "01" },
    dst := { id := "01:145038", type := "01" },
    code := "1FC9", len_ := "018",
    payload := "07000806368EFC3B0006368E071FC906368E" }

/-- The `000C RP` zone-actuator reply of spec scenario 2, as the message layer
resolves it: sent by controller `01:145038` to the gateway, with the parsed
payload record of the two actuators of zone `01`. -/
def msg000C : Evo.Message :=
  { verb := "RP", code := "000C", raw_payload := "01000010DA7FFF10E6D1FF",
    src := { id := "01:145038", type := "01", is_controller := true },
    dst := .dev { id := "18:013393", type := "18", is_controller := false },
    payload := .dict { zone_idx := some "01",
                       actuators := some ["10:891647", "10:968447"] },
    is_valid := true }

/-- Whether a parser outcome conforms to the spec's failure model: parsers
signal failure through a failing `assert` (an `AssertionError`), never
through another exception class. -/
def parserFailsOnlyByAssertion (r : Except Ramses.PyErr Evo.Payload) : Bool :=
  match r with
  | .error e => decide (e = Ramses.PyErr.assertionError)
  | .ok _ => true

/-- Whether an `Except` computation completed without an exception. -/
def exceptIsOk {ε α : Type} : Except ε α → Bool
  | .ok _ => true
  | .error _ => false

/-- A concrete sync-temperature message used to exercise `Message.__eq__`. -/
def msgEq : Evo.Message :=
  { verb := " I", code := "30C9", raw_payload := "00073A",
    src := { id := "01:145038", type := "01", is_controller := true },
    dst := .dev { id := "01:145038", type := "01", is_controller := true },
    payload := .dict {}, is_valid := true }

/-- A remote sensor device used in the C10 witness. -/
def dev34 : Evo.Device := { id := "34:021943", type := "34", is_controller := false }

/-- A second copy of the scenario-2 `000C RP` reply, used to exercise
`harvest_devices`. -/
def msg000Cb : Evo.Message :=
  { verb := "RP", code := "000C", raw_payload := "01000010DA7FFF10E6D1FF",
    src := { id := "01:145038", type := "01", is_controller := true },
    dst := .dev { id := "18:013393", type := "18", is_controller := false },
    payload := .dict { zone_idx := some "01",
                       actuators := some ["10:891647", "10:968447"] },
    is_valid := true }

/-- C6: `_has_ctl` is decided by exactly the claim's priority-ordered rules,
and the controller-only set contains `1F09`, `31D9` and `31DA`. -/
theorem has_ctl_follows_claim_rules :
    (∀ f : Ramses.Frame, Ramses.Frame._has_ctl f = Ramses.has_ctl_claim f)
    ∧ "1F09" ∈ Ramses.controllerOnlySet ∧ "31D9" ∈ Ramses.controllerOnlySet
    ∧ "31DA" ∈ Ramses.controllerOnlySet := by
  refine ⟨fun f => ?_, by decide, by decide, by decide⟩
  simp only [Ramses.Frame._has_ctl, Ramses.has_ctl_claim, Ramses.controllerOnlySet,
    Ramses.CODES_ONLY_FROM_CTL,
    List.mem_cons, List.mem_append, List.not_mem_nil, Ramses.FC, List.mem_singleton]
  split_ifs with h1 h2 h3 h4 h5 h6 h7 h8 <;> simp_all <;>
    first
    | tauto
    | rw [Bool.or_comm]

/-- C1: for a non-`1FC9` frame the outbound header is `code|verb|A` with `A`
the "other" address (dst when the source is the HGI gateway, else src); the
response-expected header is absent for verb `I`/`RP` or loopback, is
`code|RP|A` for `RQ` and `code|I|A` for `W`; in every case a string `_ctx` is
appended as `|ctx`. -/
theorem pkt_header_nonbind_rules (f : Ramses.Frame)
    (hcode : f.code ≠ "1FC9")
    (hverb : f.verb = " I" ∨ f.verb = "RQ" ∨ f.verb = " W" ∨ f.verb = "RP")
    (hctx : Ramses.ctxComputes f = true) :
    Ramses.pkt_header f false =
      .ok (some (Ramses.hdrWithCtx f
        (f.code ++ "|" ++ f.verb ++ "|" ++ Ramses.otherAddrId f)))
    ∧ ((f.verb = " I" ∨ f.verb = "RP" ∨ f.src.id = f.dst.id) →
        Ramses.pkt_header f true = .ok none)
    ∧ (f.verb = "RQ" → f.src.id ≠ f.dst.id →
        Ramses.pkt_header f true = .ok (some (Ramses.hdrWithCtx f
          (f.code ++ "|" ++ "RP" ++ "|" ++ Ramses.otherAddrId f))))
    ∧ (f.verb = " W" → f.src.id ≠ f.dst.id →
        Ramses.pkt_header f true = .ok (some (Ramses.hdrWithCtx f
          (f.code ++ "|" ++ " I" ++ "|" ++ Ramses.otherAddrId f)))) := by
  have hA : ∀ base : String,
      (match f._ctx with
        | .ok (.str s) => Except.ok (some (base ++ "|" ++ s))
        | .ok (.bool b) => Except.ok (some base)
        | .error .assertionError => Except.ok (some base)
        | .error e => Except.error e)
      = Except.ok (ε := Ramses.PyErr) (some (Ramses.hdrWithCtx f base)) := by
    intro base
    unfold Ramses.ctxComputes at hctx
    unfold Ramses.hdrWithCtx
    rcases hc : f._ctx with e | v
    · rw [hc] at hctx
      cases e <;> simp_all
    · cases v <;> simp
  have hOut : Ramses.pkt_header_base f false =
      some (f.code ++ "|" ++ f.verb ++ "|" ++ Ramses.otherAddrId f) := by
    simp [Ramses.pkt_header_base, Ramses.otherAddrId, Ramses.pkt_header_addr]
  refine ⟨?_, ?_, ?_, ?_⟩
  · simp only [Ramses.pkt_header, if_neg hcode, hOut]
    exact hA _
  · intro h
    have hcm : f.verb = Ramses.I_ ∨ f.verb = Ramses.RP ∨ f.src.id = f.dst.id := by
      rcases h with h | h | h
      · exact Or.inl h
      · exact Or.inr (Or.inl h)
      · exact Or.inr (Or.inr h)
    have hb : Ramses.pkt_header_base f true = none := by
      simp [Ramses.pkt_header_base, if_pos hcm]
    simp [Ramses.pkt_header, if_neg hcode, hb]
  · intro h hne
    have hni : ¬ (f.verb = Ramses.I_ ∨ f.verb = Ramses.RP ∨ f.src.id = f.dst.id) := by
      simp [Ramses.I_, Ramses.RP, h]
      exact hne
    have hb : Ramses.pkt_header_base f true =
        some (f.code ++ "|" ++ "RP" ++ "|" ++ Ramses.otherAddrId f) := by
      simp [Ramses.pkt_header_base, if_neg hni, h, Ramses.RQ, Ramses.RP,
        Ramses.otherAddrId, Ramses.pkt_header_addr]
      exact ⟨by decide, hne⟩
    simp only [Ramses.pkt_header, if_neg hcode, hb]
    exact hA _
  · intro h hne
    have hni : ¬ (f.verb = Ramses.I_ ∨ f.verb = Ramses.RP ∨ f.src.id = f.dst.id) := by
      simp [Ramses.I_, Ramses.RP, h]
      exact hne
    have hnq : ¬ (f.verb = Ramses.RQ) := by simp [Ramses.RQ, h]
    have hb : Ramses.pkt_header_base f true =
        some (f.code ++ "|" ++ " I" ++ "|" ++ Ramses.otherAddrId f) := by
      simp [Ramses.pkt_header_base, if_neg hni, if_neg hnq, Ramses.I_,
        Ramses.otherAddrId, Ramses.pkt_header_addr]
      exact ⟨by rw [h]; decide, by rw [h]; decide, hne⟩
    simp only [Ramses.pkt_header, if_neg hcode, hb]
    exact hA _

/-- C5: for a `1FC9` frame the outbound header is `1FC9|verb|D` with `D` the
NUL broadcast id for loopback and the destination id otherwise; the
response-expected header is `1FC9|W|src` for loopback, `1FC9|I|src` for verb
`W`, and absent otherwise (in particular for `RQ`). -/
theorem pkt_header_1FC9_rules (f : Ramses.Frame) (hcode : f.code = "1FC9") :
    Ramses.pkt_header f false =
      .ok (some (f.code ++ "|" ++ f.verb ++ "|"
        ++ (if f.src.id = f.dst.id then Ramses.NUL_DEV_ADDR.id else f.dst.id)))
    ∧ (f.src.id = f.dst.id →
        Ramses.pkt_header f true = .ok (some (f.code ++ "|" ++ " W" ++ "|" ++ f.src.id)))
    ∧ (f.src.id ≠ f.dst.id → f.verb = " W" →
        Ramses.pkt_header f true = .ok (some (f.code ++ "|" ++ " I" ++ "|" ++ f.src.id)))
    ∧ (f.src.id ≠ f.dst.id → f.verb ≠ " W" →
        Ramses.pkt_header f true = .ok none) := by
  refine ⟨?_, ?_, ?_, ?_⟩
  · simp [Ramses.pkt_header, hcode]
  · intro h
    simp [Ramses.pkt_header, hcode, h, Ramses.W_]
  · intro hne h
    simp [Ramses.pkt_header, hcode, hne, h, Ramses.W_, Ramses.I_]
  · intro hne h
    simp [Ramses.pkt_header, hcode, hne, Ramses.W_]
    intro hw
    exact absurd hw h

/-- Witness for C5 at the scenario-6 frame: outbound header
`1FC9| W|34:021943`, response-expected header `1FC9| I|01:145038`. -/
theorem pkt_header_1FC9_witness :
    frame1FC9W.code = "1FC9"
    ∧ Ramses.pkt_header frame1FC9W false =
        .ok (some (frame1FC9W.code ++ "|" ++ frame1FC9W.verb ++ "|"
          ++ (if frame1FC9W.src.id = frame1FC9W.dst.id then Ramses.NUL_DEV_ADDR.id
              else frame1FC9W.dst.id)))
    ∧ Ramses.pkt_header frame1FC9W true =
        .ok (some (frame1FC9W.code ++ "|" ++ " I" ++ "|" ++ frame1FC9W.src.id)) :=
  ⟨by decide, (pkt_header_1FC9_rules frame1FC9W (by decide)).1,
    (pkt_header_1FC9_rules frame1FC9W (by decide)).2.2.1 (by decide) (by decide)⟩

/-- Witness for C1 at a concrete HGI `RQ`: the outbound header keys on the
destination (the "other" address) and the response-expected header swaps the
verb to `RP`. -/
theorem pkt_header_nonbind_witness :
    frame22D9.code ≠ "1FC9"
    ∧ Ramses.ctxComputes frame22D9 = true
    ∧ Ramses.pkt_header frame22D9 false =
        .ok (some (Ramses.hdrWithCtx frame22D9
          (frame22D9.code ++ "|" ++ frame22D9.verb ++ "|" ++ Ramses.otherAddrId frame22D9)))
    ∧ Ramses.pkt_header frame22D9 true =
        .ok (some (Ramses.hdrWithCtx frame22D9
          (frame22D9.code ++ "|" ++ "RP" ++ "|" ++ Ramses.otherAddrId frame22D9))) :=
  ⟨by decide, by decide,
    (pkt_header_nonbind_rules frame22D9 (by decide) (by decide) (by decide)).1,
    (pkt_header_nonbind_rules frame22D9 (by decide) (by decide) (by decide)).2.2.1
      (by decide) (by decide)⟩

/-- C8: for a frame under the simple index discipline — opcode neither
complex-index nor index-none (the specific-index branches `0005`/`000C`/
`0404`/`0418`/`1100`/`3220` are all complex-index codes) and payload not an
array — a payload starting with a domain nibble forces the opcode into the
domain set on pain of `InvalidPayload`; consequently an `_idx` equal to
`F8`/`F9`/`FA`/`FC` implies membership of the domain set. -/
theorem idx_domain_guard (f : Ramses.Frame)
    (hc : f.code ∉ Ramses.CODE_IDX_COMPLEX)
    (hn : f.code ∉ Ramses.CODE_IDX_NONE)
    (ha : Ramses.Frame._has_array f = .ok false) :
    ((Ramses.pySlice f.payload 0 2 = "F8" ∨ Ramses.pySlice f.payload 0 2 = "F9"
        ∨ Ramses.pySlice f.payload 0 2 = "FA" ∨ Ramses.pySlice f.payload 0 2 = "FC") →
      f.code ∉ Ramses.CODE_IDX_DOMAIN →
      Ramses.Frame._idx f = .error .invalidPayload)
    ∧ (∀ s, Ramses.Frame._idx f = .ok (.str s) →
        (s = "F8" ∨ s = "F9" ∨ s = "FA" ∨ s = "FC") →
        f.code ∈ Ramses.CODE_IDX_DOMAIN) := by
  have h05 : f.code ≠ "0005" := fun h => hc (by rw [h]; decide)
  have h0C : f.code ≠ "000C" := fun h => hc (by rw [h]; decide)
  have h04 : f.code ≠ "0404" := fun h => hc (by rw [h]; decide)
  have h18 : f.code ≠ "0418" := fun h => hc (by rw [h]; decide)
  have h11 : f.code ≠ "1100" := fun h => hc (by rw [h]; decide)
  have h32 : f.code ≠ "3220" := fun h => hc (by rw [h]; decide)
  constructor
  · intro hd hdom
    have h09 : ¬ (f.code = "0009" ∧ f.src.type = Ramses.DEV_TYPE_MAP.OTB) :=
      fun hx => hdom (by rw [hx.1]; decide)
    have hd' : Ramses.pySlice f.payload 0 2 = Ramses.F8
        ∨ Ramses.pySlice f.payload 0 2 = Ramses.F9
        ∨ Ramses.pySlice f.payload 0 2 = Ramses.FA
        ∨ Ramses.pySlice f.payload 0 2 = Ramses.FC := hd
    simp only [Ramses.Frame._idx, Ramses._pkt_idx, if_neg h05, if_neg h09,
      if_neg h0C, if_neg h04, if_neg h18, if_neg h11, if_neg h32,
      if_neg hc, if_neg hn, ha, if_pos hd', if_pos hdom]
    rfl
  · intro s hs hsd
    by_cases hdm : f.code ∈ Ramses.CODE_IDX_DOMAIN
    · exact hdm
    · exfalso
      by_cases h09 : f.code = "0009" ∧ f.src.type = Ramses.DEV_TYPE_MAP.OTB
      · simp [Ramses.Frame._idx, Ramses._pkt_idx, if_neg h05, if_pos h09,
          Except.map] at hs
      · simp only [Ramses.Frame._idx, Ramses._pkt_idx, if_neg h05, if_neg h09,
          if_neg h0C, if_neg h04, if_neg h18, if_neg h11, if_neg h32,
          if_neg hc, if_neg hn, ha, if_pos hdm] at hs
        split_ifs at hs with hd1 hctl hnz
        · simp [Except.map] at hs
        · simp only [Except.map] at hs
          by_cases he : Ramses.pySlice f.payload 0 2 = ""
          · rw [if_pos he] at hs
            simp at hs
          · rw [if_neg he] at hs
            have hes : Ramses.pySlice f.payload 0 2 = s :=
              Ramses.CtxVal.str.inj (Except.ok.inj hs)
            apply hd1
            rw [hes]
            simpa [Ramses.F8, Ramses.F9, Ramses.FA, Ramses.FC] using hsd
        · simp [Except.map] at hs
        · simp [Except.map] at hs
        · simp [Except.map] at hs

/-- Witness for C8: `3EF0` is not a domain opcode, so the `FC...` payload
makes `_idx` raise `InvalidPayload`. -/
theorem idx_domain_guard_witness :
    frame3EF0.code ∉ Ramses.CODE_IDX_COMPLEX
    ∧ frame3EF0.code ∉ Ramses.CODE_IDX_NONE
    ∧ Ramses.Frame._has_array frame3EF0 = .ok false
    ∧ Ramses.Frame._idx frame3EF0 = .error .invalidPayload :=
  ⟨by decide, by decide, by decide,
    (idx_domain_guard frame3EF0 (by decide) (by decide) (by decide)).1
      (by decide) (by decide)⟩

/-- Every successful `Frame.__init__` run passed the structural regex and the
payload/declared-length consistency check, and copies the raw fields
unchanged. -/
theorem init_ok_shape (r : Ramses.RawLine) (f : Ramses.Frame)
    (h : Ramses.Frame.init r = .ok f) :
    Ramses.commandRegexMatch r = true
    ∧ r.payload.length = Ramses.pyInt r.len_ * 2
    ∧ f.payload = r.payload ∧ f.len_ = r.len_ := by
  unfold Ramses.Frame.init at h
  split at h
  · simp at h
  · rename_i hreg
    rcases hpk : Ramses.pkt_addrs (Ramses.mkAddress r.addr0)
        (Ramses.mkAddress r.addr1) (Ramses.mkAddress r.addr2) with e | sd
    · rw [hpk] at h
      simp at h
    · rw [hpk] at h
      obtain ⟨s, d⟩ := sd
      dsimp only at h
      by_cases hlen : r.payload.length = Ramses.pyInt r.len_ * 2
      · rw [if_neg (fun hcon => hcon hlen)] at h
        injection h with hf
        subst hf
        exact ⟨by simpa using hreg, hlen, rfl, rfl⟩
      · rw [if_pos hlen] at h
        simp at h

/-- C7: a successfully constructed frame has `len(payload_hex) ==
2 * declared_length` with the declared length at most 48; a line whose
payload length disagrees with its declared decimal length is rejected and
yields no frame. -/
theorem frame_len_invariant (r : Ramses.RawLine) :
    (∀ f, Ramses.Frame.init r = .ok f →
      f.payload.length = 2 * Ramses.pyInt f.len_ ∧ Ramses.pyInt f.len_ ≤ 48)
    ∧ (r.payload.length ≠ 2 * Ramses.pyInt r.len_ →
        ∀ f, Ramses.Frame.init r ≠ .ok f) := by
  constructor
  · intro f h
    obtain ⟨hreg, hlen, hp, hl⟩ := init_ok_shape r f h
    have h48 : r.payload.length / 2 ≤ 48 := by
      simp only [Ramses.commandRegexMatch, Bool.and_eq_true, decide_eq_true_eq,
        beq_iff_eq, Bool.or_eq_true] at hreg
      exact hreg.2
    rw [hp, hl]
    omega
  · intro hne f h
    obtain ⟨hreg, hlen, hp, hl⟩ := init_ok_shape r f h
    omega

/-- Witness for C7: the good line builds `frame22D9` and satisfies the length
invariant; the corrupted line is rejected. -/
theorem frame_len_invariant_witness :
    Ramses.Frame.init raw22D9 = .ok frame22D9
    ∧ (frame22D9.payload.length = 2 * Ramses.pyInt frame22D9.len_
        ∧ Ramses.pyInt frame22D9.len_ ≤ 48)
    ∧ raw22D9bad.payload.length ≠ 2 * Ramses.pyInt raw22D9bad.len_
    ∧ Ramses.Frame.init raw22D9bad ≠ .ok frame22D9 :=
  ⟨by decide, (frame_len_invariant raw22D9).1 frame22D9 (by decide),
    by decide, (frame_len_invariant raw22D9bad).2 (by decide) frame22D9⟩

/-- C2 counterexample: `msg000C` is a validly constructed, valid message whose
`is_array` is true although its verb is `RP` (not `I`) and its code is `000C`
(not `1FC9`) — `Message.is_array` treats every `I`/`RP` `000C` as an array. -/
theorem is_array_000C_RP_counterexample :
    Evo.Message.init "RP" "000C" "01000010DA7FFF10E6D1FF" msg000C.src msg000C.dst
        (.ok msg000C.payload) = .ok msg000C
    ∧ msg000C.is_array = true ∧ msg000C.is_valid = true
    ∧ ¬ (msg000C.verb = " I" ∨ msg000C.code = "1FC9") := by decide

/-- C2 (amended): a `Frame` whose `_has_array` is true has verb `I` or code
`1FC9`; a `Message` whose `is_array` is true has verb `I` or code `1FC9` or —
the amendment — code `000C` (whose non-`RQ` frames are all flagged as
arrays). -/
theorem arrays_imply_verb_I :
    (∀ f : Ramses.Frame, Ramses.Frame._has_array f = .ok true →
        f.verb = " I" ∨ f.code = "1FC9")
    ∧ (∀ m : Evo.Message, m.is_array = true →
        m.verb = " I" ∨ m.code = "1FC9" ∨ m.code = "000C") := by
  constructor
  · intro f h
    simp only [Ramses.Frame._has_array] at h
    split at h
    · next hc => exact Or.inr hc
    · split at h
      · simp at h
      · next hvb =>
        push_neg at hvb
        exact Or.inl hvb.1
  · intro m h
    simp only [Evo.Message.is_array] at h
    split_ifs at h <;> simp_all <;> tauto

/-- Witness for C2 at concrete inputs: the bind frame is an array and
satisfies the frame-side conclusion; `msg000C` satisfies the amended
message-side conclusion. -/
theorem arrays_imply_verb_I_witness :
    (Ramses.Frame._has_array frame1FC9 = .ok true
      ∧ (frame1FC9.verb = " I" ∨ frame1FC9.code = "1FC9"))
    ∧ (msg000C.is_array = true
      ∧ (msg000C.verb = " I" ∨ msg000C.code = "1FC9" ∨ msg000C.code = "000C")) :=
  ⟨⟨by decide, arrays_imply_verb_I.1 frame1FC9 (by decide)⟩,
   ⟨by decide, arrays_imply_verb_I.2 msg000C (by decide)⟩⟩

/-- C3: under the spec's parser-failure model, `_parse_payload` never lets an
exception escape: it always returns; a parser assertion failure is absorbed
and yields `False` with the payload left as `None`; a parser result that is
neither a dict nor a list likewise yields `False` (with the payload kept). -/
theorem parse_payload_never_raises (r : Except Ramses.PyErr Evo.Payload)
    (h : parserFailsOnlyByAssertion r = true) :
    exceptIsOk (Evo._parse_payload r) = true
    ∧ (r = .error .assertionError →
        Evo._parse_payload r = .ok (false, .pyNone))
    ∧ (∀ p, r = .ok p → p.isDictOrList = false →
        Evo._parse_payload r = .ok (false, p)) := by
  refine ⟨?_, ?_, ?_⟩
  · rcases r with e | p
    · simp only [parserFailsOnlyByAssertion, decide_eq_true_eq] at h
      subst h
      rfl
    · by_cases hp : p.isDictOrList = true
      · simp [Evo._parse_payload, hp, exceptIsOk]
      · simp only [Bool.not_eq_true] at hp
        simp [Evo._parse_payload, hp, exceptIsOk]
  · intro he
    subst he
    rfl
  · intro p hp hnd
    subst hp
    simp [Evo._parse_payload, hnd]

/-- Witness for C3: a parser that fails its assertion is absorbed — the
message is merely marked invalid. -/
theorem parse_payload_never_raises_witness :
    parserFailsOnlyByAssertion (.error Ramses.PyErr.assertionError) = true
    ∧ Evo._parse_payload (.error Ramses.PyErr.assertionError) = .ok (false, .pyNone) :=
  ⟨by decide,
    (parse_payload_never_raises (.error Ramses.PyErr.assertionError) (by decide)).2.1 rfl⟩

/-- C4 (code bug): `Message.__eq__` as written calls `all` with five
positional arguments, which raises `TypeError` on every comparison — even a
message compared against itself, where the intended full-tuple equality
holds. -/
theorem message_eq_always_raises :
    Evo.Message.eqPy msgEq msgEq = .error .typeError
    ∧ Evo.Message.eqIntended msgEq msgEq = true := by decide

/-- C10: the constructor's array/shape assertion — for any opcode other than
`000C`, a successfully built message has `is_array` equal to
`isinstance(payload, list)`, and whenever the freshly parsed fields disagree
the constructor fails with `AssertionError`. -/
theorem msg_init_array_assert (verb code raw : String) (src : Evo.Device)
    (dst : Evo.DstRef) (parsed : Except Ramses.PyErr Evo.Payload) :
    (∀ m, Evo.Message.init verb code raw src dst parsed = .ok m →
      code ≠ "000C" → m.is_array = m.payload.isList)
    ∧ (∀ b pl, code ≠ "000C" →
        Evo._parse_payload parsed = .ok (b, pl) →
        Evo.Message.is_array
          { verb := verb, code := code, raw_payload := raw, src := src,
            dst := dst, payload := pl, is_valid := b } ≠ pl.isList →
        Evo.Message.init verb code raw src dst parsed = .error .assertionError) := by
  constructor
  · intro m h hc
    unfold Evo.Message.init at h
    rcases hp : Evo._parse_payload parsed with e | bp
    · rw [hp] at h
      simp at h
    · rw [hp] at h
      obtain ⟨b, pl⟩ := bp
      dsimp only at h
      split at h
      · simp at h
      · rename_i hnot
        injection h with hm
        subst hm
        by_contra hne2
        exact hnot ⟨hc, hne2⟩
  · intro b pl hc hp hne
    unfold Evo.Message.init
    rw [hp]
    dsimp only
    rw [if_pos ⟨hc, hne⟩]

/-- Witness for C10: an `I 1FC9` packet whose parser fails leaves a non-list
payload while `is_array` is true, so construction raises `AssertionError`. -/
theorem msg_init_array_assert_witness :
    ("1FC9" ≠ "000C")
    ∧ Evo._parse_payload (.error Ramses.PyErr.assertionError) = .ok (false, .pyNone)
    ∧ Evo.Message.is_array
        { verb := " I", code := "1FC9", raw_payload := "002309063628", src := dev34,
          dst := .addr "63:262143", payload := .pyNone, is_valid := false }
        ≠ Evo.Payload.isList .pyNone
    ∧ Evo.Message.init " I" "1FC9" "002309063628" dev34 (.addr "63:262143")
        (.error Ramses.PyErr.assertionError) = .error .assertionError :=
  ⟨by decide, by decide, by decide,
    (msg_init_array_assert " I" "1FC9" "002309063628" dev34 (.addr "63:262143")
        (.error Ramses.PyErr.assertionError)).2 false .pyNone
      (by decide) (by decide) (by decide)⟩

/-- C9 counterexample: on a `000C RP` message the code claims the destination
under the source controller *before* recording the actuators, which the
claim's rules omit. -/
theorem harvest_devices_claim_counterexample :
    Evo.Message.harvest_devices msg000Cb ≠ Evo.harvest_devices_claimed msg000Cb
    ∧ Evo.Message.harvest_devices msg000Cb =
        .ok [{ target := "18:013393", controller := some "01:145038" },
             { target := "10:891647", controller := some "01:145038",
               parent_000c := some "01" },
             { target := "10:968447", controller := some "01:145038",
               parent_000c := some "01" }]
    ∧ Evo.harvest_devices_claimed msg000Cb =
        .ok [{ target := "10:891647", controller := some "01:145038",
               parent_000c := some "01" },
             { target := "10:968447", controller := some "01:145038",
               parent_000c := some "01" }] := by decide

/-- C9 (amended): the harvesting rules, with the `000C RP` case corrected to
also claim the destination under the source controller before recording the
actuators. -/
theorem harvest_devices_rules (m : Evo.Message) :
    (m.code = "1F09" ∧ m.verb = " I" →
      Evo.Message.harvest_devices m =
        .ok [{ target := m.dst.name, controller := some m.src.id }])
    ∧ (m.code = "31D9" ∧ m.verb = " I" →
      Evo.Message.harvest_devices m =
        .ok [{ target := m.dst.name, controller := some m.src.id }])
    ∧ (∀ z acts, m.code = "000C" ∧ m.verb = "RP" →
        m.payload = .dict { zone_idx := some z, actuators := some acts } →
        Evo.Message.harvest_devices m =
          .ok ({ target := m.dst.name, controller := some m.src.id }
            :: acts.map fun a =>
              { target := a, controller := some m.src.id, parent_000c := some z }))
    ∧ (¬ (m.code = "1F09" ∧ m.verb = " I") → ¬ (m.code = "31D9" ∧ m.verb = " I") →
        ¬ (m.code = "000C" ∧ m.verb = "RP") →
        (m.src.is_controller = true →
          Evo.Message.harvest_devices m =
            .ok [{ target := m.dst.name, controller := some m.src.id }])
        ∧ (m.src.is_controller = false → m.dst.isCtlDevice = true →
          Evo.Message.harvest_devices m =
            .ok [{ target := m.src.id, controller := some m.dst.name }])
        ∧ (m.src.is_controller = false → m.dst.isCtlDevice = false →
          Evo.Message.harvest_devices m =
            .ok ({ target := m.src.id }
              :: (if m.dst ≠ Evo.DstRef.dev m.src then [{ target := m.dst.name }]
                  else [])))) := by
  refine ⟨?_, ?_, ?_, ?_⟩
  · intro h
    simp [Evo.Message.harvest_devices, if_pos h]
  · intro h
    have h1 : ¬ (m.code = "1F09" ∧ m.verb = " I") := by
      rintro ⟨hx, -⟩
      rw [hx] at h
      exact absurd h.1 (by decide)
    simp [Evo.Message.harvest_devices, if_neg h1, if_pos h]
  · intro z acts h hpl
    have h1 : ¬ (m.code = "1F09" ∧ m.verb = " I") := by
      rintro ⟨hx, -⟩
      rw [hx] at h
      exact absurd h.1 (by decide)
    have h2 : ¬ (m.code = "31D9" ∧ m.verb = " I") := by
      rintro ⟨hx, -⟩
      rw [hx] at h
      exact absurd h.1 (by decide)
    simp [Evo.Message.harvest_devices, if_neg h1, if_neg h2, if_pos h, hpl]
  · intro h1 h2 h3
    refine ⟨?_, ?_, ?_⟩
    · intro hs
      simp [Evo.Message.harvest_devices, if_neg h1, if_neg h2, if_neg h3, hs]
    · intro hs hd
      simp [Evo.Message.harvest_devices, if_neg h1, if_neg h2, if_neg h3, hs, hd]
    · intro hs hd
      simp [Evo.Message.harvest_devices, if_neg h1, if_neg h2, if_neg h3, hs, hd]

/-- Witness for C9 at the concrete `000C RP` reply: the destination is
claimed first, then both actuators with the zone index. -/
theorem harvest_devices_rules_witness :
    (msg000Cb.code = "000C" ∧ msg000Cb.verb = "RP")
    ∧ msg000Cb.payload
      = .dict { zone_idx := some "01", actuators := some ["10:891647", "10:968447"] }
    ∧ Evo.Message.harvest_devices msg000Cb =
        .ok ({ target := msg000Cb.dst.name, controller := some msg000Cb.src.id }
          :: (["10:891647", "10:968447"].map fun a =>
            { target := a, controller := some msg000Cb.src.id,
              parent_000c := some "01" })) :=
  ⟨by decide, by decide,
    (harvest_devices_rules msg000Cb).2.2.1 "01" ["10:891647", "10:968447"]
      (by decide) (by decide)⟩
